import Mathlib

/-!
Verification of the GLX rendering backend of compton (`src/opengl.c`).

The development shallowly embeds the functions the specification talks
about: the frame-age damage tracker (`glx_paint_pre`), the FBConfig
comparator and negotiation (`glx_cmp_fbconfig`, `glx_update_fbconfig`),
the convolution-blur shader synthesis (`glx_init_conv_blur`), the
pixmap-texture bridge (`glx_bind_pixmap`, `glx_release_pixmap`), the
kawase iteration reduction and the scissor/stencil state discipline of
the two blur routines (`glx_conv_blur_dst`, `glx_kawase_blur_dst`).

External GL / X11 calls are modelled by explicit oracle inputs (query
results, allocation results); pixman regions are modelled as finite sets
of pixels, on which only union, copy and equality are exercised here.
Constants that live in headers outside the embedded translation unit are
modelled from the spec where a concrete value is needed (`OPENGL_MAX_DEPTH
= 32`, from "one per attainable color depth (0..32)") and kept as
parameters otherwise (`CGLX_MAX_BUFFER_AGE`, `MAX_BLUR_PASS`).
-/

namespace Compton

/-- A pixman `region_t`, modelled as a finite set of pixels.  The damage
tracker only unions, copies and compares regions. -/
abbrev Region := Finset (ℤ × ℤ)

/-- `glx_paint_pre` (src/opengl.c:1047-1102), the frame-age damage tracker.

* `maxBufferAge` models the constant `CGLX_MAX_BUFFER_AGE` (the length of
  the `all_damage_last` history array, declared in a header outside
  `src/`); it is kept as a parameter.
* `bufferAge0` is the buffer age obtained from `glXQueryDrawable` (0 when
  the swap method is not `SWAPM_BUFFER_AGE`).
* `traceDamage` is `ps->o.glx_swap_method < 0 || ps->o.glx_swap_method > 1`.

Returns the computed paint region together with the updated damage
history (shift-and-prepend of the raw input damage, performed only when
`traceDamage`). -/
def glx_paint_pre (maxBufferAge : ℕ) (screenReg : Region)
    (damageHist : List Region) (traceDamage : Bool) (preg : Region)
    (bufferAge0 : ℕ) : Region × List Region :=
  let newdamage := if traceDamage then preg else ∅
  let bufferAge := if bufferAge0 > maxBufferAge + 1 then 0 else bufferAge0
  let outReg :=
    if bufferAge ≠ 0 then
      (damageHist.take (bufferAge - 1)).foldl (· ∪ ·) preg
    else screenReg
  let hist' :=
    if traceDamage then newdamage :: damageHist.take (maxBufferAge - 1)
    else damageHist
  (outReg, hist')

/-- Folding union from an initial region is the initial region joined with
the fold of the list from the empty region. -/
theorem foldl_union_eq_union (l : List Region) (r : Region) :
    l.foldl (· ∪ ·) r = r ∪ l.foldr (· ∪ ·) ∅ := by
  induction l generalizing r with
  | nil => simp
  | cons x xs ih =>
      simp only [List.foldl_cons, List.foldr_cons, ih (r ∪ x)]
      ext p
      simp [Finset.mem_union]

/-- C1 (counterexample): with history length 1, a reported buffer age of 2
is strictly greater than the history length, yet `glx_paint_pre` does
*not* behave like the age-0 (full-screen) case: the code only clamps ages
strictly greater than `CGLX_MAX_BUFFER_AGE + 1` (src/opengl.c:1074). -/
theorem C1_counterexample :
    (glx_paint_pre 1 {((0 : ℤ), (0 : ℤ))} [{((1 : ℤ), (0 : ℤ))}] false ∅ 2).1
      ≠ (glx_paint_pre 1 {((0 : ℤ), (0 : ℤ))} [{((1 : ℤ), (0 : ℤ))}] false ∅ 0).1 := by
  decide

/-- C1 (amended): for buffer age 0 the computed region is the full-screen
region; for `1 ≤ a ≤ CGLX_MAX_BUFFER_AGE + 1` it is the input region
unioned with the first `a - 1` damage-history entries; and only for
`a > CGLX_MAX_BUFFER_AGE + 1` does the tracker fall back to the age-0
full-screen behaviour. -/
theorem C1_glx_paint_pre_amended (maxBufferAge : ℕ) (screenReg : Region)
    (hist : List Region) (tr : Bool) (preg : Region) (a : ℕ) :
    (a = 0 → (glx_paint_pre maxBufferAge screenReg hist tr preg a).1 = screenReg) ∧
    (1 ≤ a → a ≤ maxBufferAge + 1 →
      (glx_paint_pre maxBufferAge screenReg hist tr preg a).1
        = preg ∪ (hist.take (a - 1)).foldr (· ∪ ·) ∅) ∧
    (a > maxBufferAge + 1 →
      (glx_paint_pre maxBufferAge screenReg hist tr preg a).1 = screenReg) := by
  refine ⟨?_, ?_, ?_⟩
  · rintro rfl
    simp [glx_paint_pre]
  · intro h1 h2
    have ha : ¬ (a > maxBufferAge + 1) := by omega
    have ha' : a ≠ 0 := by omega
    simp only [glx_paint_pre, if_neg ha, if_pos ha']
    exact foldl_union_eq_union _ _
  · intro h
    simp [glx_paint_pre, if_pos h]

/-- Witness for `C1_glx_paint_pre_amended` at a concrete input. -/
theorem C1_glx_paint_pre_amended_witness :
    (glx_paint_pre 2 {((0 : ℤ), (0 : ℤ))} [{((1 : ℤ), (0 : ℤ))}, {((2 : ℤ), (0 : ℤ))}]
        false {((3 : ℤ), (0 : ℤ))} 2).1
      = {((3 : ℤ), (0 : ℤ))}
        ∪ (([{((1 : ℤ), (0 : ℤ))}, {((2 : ℤ), (0 : ℤ))}] : List Region).take 1).foldr
            (· ∪ ·) ∅ :=
  (C1_glx_paint_pre_amended 2 {((0 : ℤ), (0 : ℤ))}
      [{((1 : ℤ), (0 : ℤ))}, {((2 : ℤ), (0 : ℤ))}] false
      {((3 : ℤ), (0 : ℤ))} 2).2.1 (by decide) (by decide)

/-! ## Capability negotiator: FBConfig comparator (src/opengl.c:30-99) -/

/-- The GLX attributes of an FBConfig that `glx_cmp_fbconfig` queries
through `glXGetFBConfigAttrib` (src/opengl.c:57-73). -/
structure FbAttrs where
  redSize : ℤ
  bindRgba : ℤ
  doubleBuffer : ℤ
  stencilSize : ℤ
  depthSize : ℤ
  bindMipmap : ℤ
deriving DecidableEq

/-- `glx_cmp_fbconfig` (src/opengl.c:46-76).  `none` models a NULL
`glx_fbconfig_t *`.  `P_CMPATTR_LT(attr)` returns `attr_b - attr_a` when
the attributes differ; `P_CMPATTR_GT(attr)` returns `attr_a - attr_b`. -/
def glx_cmp_fbconfig : Option FbAttrs → Option FbAttrs → ℤ
  | none, _ => -1
  | some _, none => 1
  | some a, some b =>
    if a.redSize ≠ 8 then -1
    else if b.redSize ≠ 8 then 1
    else if a.bindRgba ≠ b.bindRgba then b.bindRgba - a.bindRgba
    else if a.doubleBuffer ≠ b.doubleBuffer then b.doubleBuffer - a.doubleBuffer
    else if a.stencilSize ≠ b.stencilSize then b.stencilSize - a.stencilSize
    else if a.depthSize ≠ b.depthSize then b.depthSize - a.depthSize
    else if a.bindMipmap ≠ b.bindMipmap then a.bindMipmap - b.bindMipmap
    else 0

/-- "`x` is ranked strictly better than `y`": in
`glx_update_fbconfig_bydepth` (src/opengl.c:88) a new candidate `x`
overrides the retained `y` exactly when `glx_cmp_fbconfig y x < 0`. -/
def fbconfigBetter (x y : Option FbAttrs) : Prop :=
  glx_cmp_fbconfig y x < 0

instance (x y : Option FbAttrs) : Decidable (fbconfigBetter x y) := by
  unfold fbconfigBetter; infer_instance

set_option maxHeartbeats 2000000 in
/-- Transitivity of the comparator on non-NULL configurations. -/
theorem cmp_fbconfig_trans_some (a b c : FbAttrs) :
    glx_cmp_fbconfig (some b) (some a) < 0 →
    glx_cmp_fbconfig (some c) (some b) < 0 →
    glx_cmp_fbconfig (some c) (some a) < 0 := by
  simp only [glx_cmp_fbconfig]
  split_ifs <;> omega

/-- C2: the comparator's strict-preference relation is transitive, and a
candidate whose red-channel size is not 8 is never ranked better than one
whose red-channel size is 8, whatever its other attributes. -/
theorem C2_cmp_fbconfig_swo :
    (∀ a b c : Option FbAttrs,
        fbconfigBetter a b → fbconfigBetter b c → fbconfigBetter a c) ∧
    (∀ a b : FbAttrs, a.redSize ≠ 8 → b.redSize = 8 →
        ¬ fbconfigBetter (some a) (some b)) := by
  constructor
  · rintro (_ | ⟨a⟩) (_ | ⟨b⟩) (_ | ⟨c⟩) hab hbc <;>
      first
        | exact cmp_fbconfig_trans_some _ _ _ hab hbc
        | (simp only [fbconfigBetter, glx_cmp_fbconfig] at *) <;> omega
  · intro a b ha hb
    simp only [fbconfigBetter, glx_cmp_fbconfig, hb]
    split_ifs <;> omega

/-- Witness for `C2_cmp_fbconfig_swo` at concrete configurations: a
double-stencil chain `A ≻ B ≻ C` yields `A ≻ C`, and a 10-bit-red
candidate does not outrank an 8-bit one. -/
theorem C2_cmp_fbconfig_swo_witness :
    fbconfigBetter (some ⟨8, 0, 0, 0, 0, 0⟩) (some ⟨8, 0, 0, 1, 0, 0⟩) ∧
    fbconfigBetter (some ⟨8, 0, 0, 1, 0, 0⟩) (some ⟨8, 0, 0, 2, 0, 0⟩) ∧
    fbconfigBetter (some ⟨8, 0, 0, 0, 0, 0⟩) (some ⟨8, 0, 0, 2, 0, 0⟩) ∧
    ¬ fbconfigBetter (some ⟨10, 1, 1, 8, 24, 0⟩) (some ⟨8, 0, 0, 0, 0, 1⟩) :=
  ⟨by decide, by decide,
    C2_cmp_fbconfig_swo.1 (some ⟨8, 0, 0, 0, 0, 0⟩) (some ⟨8, 0, 0, 1, 0, 0⟩)
      (some ⟨8, 0, 0, 2, 0, 0⟩) (by decide) (by decide),
    C2_cmp_fbconfig_swo.2 ⟨10, 1, 1, 8, 24, 0⟩ ⟨8, 0, 0, 0, 0, 1⟩ (by decide) (by decide)⟩

/-! ## Convolution blur shader synthesis (src/opengl.c:539-614) -/

/-- One accumulation term `sum += float(w) * texture(tex_scr, ..±(ox,oy))`
emitted into the convolution fragment shader. -/
structure ConvTerm where
  weight : ℚ
  offx : ℤ
  offy : ℤ
deriving DecidableEq

/-- The kernel cell at row `j`, column `k`.  Kernel values are
`xcb_render_fixed_t` fixed-point numbers, modelled as rationals; the
layout is `kern[0] = wid`, `kern[1] = hei`, data from index 2
(src/opengl.c:600). -/
def kernCell (kern : ℕ → ℚ) (wid j k : ℕ) : ℚ := kern (2 + j * wid + k)

/-- Body of the emission double loop (src/opengl.c:596-608): the term
emitted for cell `(j, k)`, or `none` for the center cell
(`hei/2 == j && wid/2 == k`) and for zero-weight cells. -/
def convCellTerm (kern : ℕ → ℚ) (wid hei j k : ℕ) : Option ConvTerm :=
  if hei / 2 = j ∧ wid / 2 = k then none
  else if kernCell kern wid j k = 0 then none
  else some ⟨kernCell kern wid j k, (k : ℤ) - (wid / 2 : ℕ), (j : ℤ) - (hei / 2 : ℕ)⟩

/-- One step of the double loop: append the emitted term (if any) and add
its weight into the running `sum` (src/opengl.c:603-604). -/
def convStep (kern : ℕ → ℚ) (wid hei j k : ℕ) (acc : List ConvTerm × ℚ) :
    List ConvTerm × ℚ :=
  match convCellTerm kern wid hei j k with
  | none => acc
  | some t => (acc.1 ++ [t], acc.2 + t.weight)

/-- The emission double loop of `glx_init_conv_blur` (src/opengl.c:595-608):
the row-major list of emitted accumulation terms and the accumulated
`sum` of their weights. -/
def convLoop (kern : ℕ → ℚ) (wid hei : ℕ) : List ConvTerm × ℚ :=
  (List.range hei).foldl
    (fun acc j => (List.range wid).foldl (fun a k => convStep kern wid hei j k a) acc)
    ([], 0)

/-- The divisor of the shader's final output expression
`gl_FragColor = sum / (factor_center + float(%.7g))` where the literal is
the accumulated weight sum (src/opengl.c:553-555, 610). -/
def glx_conv_shader_divisor (kern : ℕ → ℚ) (wid hei : ℕ) (fc : ℚ) : ℚ :=
  fc + (convLoop kern wid hei).2

/-- Normal form of the emitted term list. -/
def convTermsSpec (kern : ℕ → ℚ) (wid hei : ℕ) : List ConvTerm :=
  (List.range hei).flatMap fun j => (List.range wid).filterMap (convCellTerm kern wid hei j)

theorem convInner_spec (kern : ℕ → ℚ) (wid hei j : ℕ) (ks : List ℕ)
    (acc : List ConvTerm × ℚ) :
    ks.foldl (fun a k => convStep kern wid hei j k a) acc
      = (acc.1 ++ ks.filterMap (convCellTerm kern wid hei j),
         acc.2 + ((ks.filterMap (convCellTerm kern wid hei j)).map ConvTerm.weight).sum) := by
  induction ks generalizing acc with
  | nil => simp
  | cons k ks ih =>
      cases h : convCellTerm kern wid hei j k with
      | none =>
          have hstep : convStep kern wid hei j k acc = acc := by
            simp [convStep, h]
          simp only [List.foldl_cons, hstep, ih, List.filterMap_cons, h]
      | some t =>
          have hstep : convStep kern wid hei j k acc = (acc.1 ++ [t], acc.2 + t.weight) := by
            simp [convStep, h]
          simp only [List.foldl_cons, hstep, ih, List.filterMap_cons, h]
          simp [add_assoc]

theorem convOuter_spec (kern : ℕ → ℚ) (wid hei : ℕ) (js : List ℕ)
    (acc : List ConvTerm × ℚ) :
    js.foldl
        (fun acc j => (List.range wid).foldl (fun a k => convStep kern wid hei j k a) acc)
        acc
      = (acc.1 ++ js.flatMap (fun j => (List.range wid).filterMap (convCellTerm kern wid hei j)),
         acc.2 + (((js.flatMap fun j =>
             (List.range wid).filterMap (convCellTerm kern wid hei j)).map
             ConvTerm.weight).sum)) := by
  induction js generalizing acc with
  | nil => simp
  | cons j js ih =>
      rw [List.foldl_cons, ih, convInner_spec]
      simp [add_assoc]

/-- The loop translation coincides with its normal form. -/
theorem convLoop_eq (kern : ℕ → ℚ) (wid hei : ℕ) :
    convLoop kern wid hei
      = (convTermsSpec kern wid hei,
         ((convTermsSpec kern wid hei).map ConvTerm.weight).sum) := by
  unfold convLoop convTermsSpec
  rw [convOuter_spec]
  simp

theorem convCellTerm_eq_some (kern : ℕ → ℚ) (wid hei j k : ℕ) (t : ConvTerm) :
    convCellTerm kern wid hei j k = some t ↔
      ¬(hei / 2 = j ∧ wid / 2 = k) ∧ kernCell kern wid j k ≠ 0 ∧
      t = ⟨kernCell kern wid j k, (k : ℤ) - (wid / 2 : ℕ), (j : ℤ) - (hei / 2 : ℕ)⟩ := by
  unfold convCellTerm
  split_ifs with h1 h2 <;> simp_all [eq_comm]

/-- Pixel offsets of the emitted terms are pairwise distinct: each kernel
cell contributes at most one term, at its own offset. -/
theorem convTerms_offsets_nodup (kern : ℕ → ℚ) (wid hei : ℕ) :
    ((convTermsSpec kern wid hei).map fun t => (t.offx, t.offy)).Nodup := by
  unfold convTermsSpec
  rw [List.map_flatMap, List.nodup_flatMap]
  constructor
  · intro j _
    rw [List.map_filterMap]
    refine List.Nodup.filterMap ?_ (List.nodup_range wid)
    intro a a' b hb hb'
    rcases Option.map_eq_some'.1 hb with ⟨t, ht, rfl⟩
    rcases Option.map_eq_some'.1 hb' with ⟨t', ht', h2⟩
    rcases (convCellTerm_eq_some kern wid hei j a t).1 ht with ⟨_, _, rfl⟩
    rcases (convCellTerm_eq_some kern wid hei j a' t').1 ht' with ⟨_, _, rfl⟩
    have : (a' : ℤ) - (wid / 2 : ℕ) = (a : ℤ) - (wid / 2 : ℕ) := congrArg Prod.fst h2
    omega
  · refine (List.pairwise_lt_range hei).imp ?_
    intro j j' hjj
    intro x hx hx'
    rcases List.mem_map.1 hx with ⟨t, ht, rfl⟩
    rcases List.mem_filterMap.1 ht with ⟨k, _, hk⟩
    rcases (convCellTerm_eq_some kern wid hei j k t).1 hk with ⟨_, _, rfl⟩
    rcases List.mem_map.1 hx' with ⟨t', ht', h2⟩
    rcases List.mem_filterMap.1 ht' with ⟨k', _, hk'⟩
    rcases (convCellTerm_eq_some kern wid hei j' k' t').1 hk' with ⟨_, _, rfl⟩
    have : (j : ℤ) - (hei / 2 : ℕ) = (j' : ℤ) - (hei / 2 : ℕ) := congrArg Prod.snd h2.symm
    omega

/-- The 3x3 box-blur kernel of the spec's example scenario: all eight
non-center weights 1, center weight 0 (`kern[0] = kern[1] = 3`, center
cell at data index `2 + 1*3 + 1 = 6`). -/
def box3 : ℕ → ℚ := fun i => if i = 0 ∨ i = 1 then 3 else if i = 6 then 0 else 1

/-- C3: the synthesized convolution shader has exactly one accumulation
term per non-center, non-zero-weight kernel cell — membership
characterization plus distinctness of the emitted pixel offsets — each
term weighted by the cell's value at its integer offset; the final
divisor is `factor_center` plus the total emitted weight; and for the 3x3
box kernel, 8 terms of weight 1 with divisor `factor_center + 8`. -/
theorem C3_conv_shader_synthesis (kern : ℕ → ℚ) (wid hei : ℕ) (fc : ℚ) :
    (∀ t, t ∈ (convLoop kern wid hei).1 ↔
      ∃ j k, j < hei ∧ k < wid ∧ ¬(hei / 2 = j ∧ wid / 2 = k) ∧
        kernCell kern wid j k ≠ 0 ∧
        t = ⟨kernCell kern wid j k, (k : ℤ) - (wid / 2 : ℕ), (j : ℤ) - (hei / 2 : ℕ)⟩) ∧
    ((convLoop kern wid hei).1.map fun t => (t.offx, t.offy)).Nodup ∧
    glx_conv_shader_divisor kern wid hei fc
      = fc + ((convLoop kern wid hei).1.map ConvTerm.weight).sum ∧
    ((convLoop box3 3 3).1.length = 8 ∧
      (∀ t ∈ (convLoop box3 3 3).1, t.weight = 1) ∧
      glx_conv_shader_divisor box3 3 3 fc = fc + 8) := by
  refine ⟨?_, ?_, ?_, ?_, ?_, ?_⟩
  · intro t
    rw [convLoop_eq]
    unfold convTermsSpec
    simp only [List.mem_flatMap, List.mem_filterMap, List.mem_range]
    constructor
    · rintro ⟨j, hj, k, hk, hcell⟩
      rcases (convCellTerm_eq_some kern wid hei j k t).1 hcell with ⟨h1, h2, h3⟩
      exact ⟨j, k, hj, hk, h1, h2, h3⟩
    · rintro ⟨j, k, hj, hk, h1, h2, rfl⟩
      exact ⟨j, hj, k, hk, (convCellTerm_eq_some kern wid hei j k _).2 ⟨h1, h2, rfl⟩⟩
  · rw [convLoop_eq]
    exact convTerms_offsets_nodup kern wid hei
  · rw [glx_conv_shader_divisor, convLoop_eq]
  · decide
  · intro t ht
    have := (convLoop_eq box3 3 3) ▸ ht
    fin_cases this <;> rfl
  · show fc + (convLoop box3 3 3).2 = fc + 8
    have h8 : (convLoop box3 3 3).2 = 8 := by
      norm_num [convLoop, List.range_succ, convStep, convCellTerm, kernCell, box3]
    rw [h8]

/-- Witness for `C3_conv_shader_synthesis`: the top-left cell of the 3x3
box kernel emits the weight-1 term at offset `(-1, -1)`. -/
theorem C3_conv_shader_synthesis_witness :
    (⟨1, -1, -1⟩ : ConvTerm) ∈ (convLoop box3 3 3).1 :=
  ((C3_conv_shader_synthesis box3 3 3 0).1 ⟨1, -1, -1⟩).2
    ⟨0, 0, by norm_num, by norm_num, by norm_num, by norm_num [kernCell, box3],
      by norm_num [kernCell, box3]⟩

/-! ## Pixmap-texture bridge (src/opengl.c:877-1042) -/

/-- Modelled from the spec: `OPENGL_MAX_DEPTH`, the maximum supported
color depth.  The constant lives in `opengl.h`, outside the embedded
translation unit; the spec's "one per attainable color depth (0..32)"
fixes it at 32. -/
def OPENGL_MAX_DEPTH : ℕ := 32

/-- The configured backend (`ps->o.backend`); `xrender` stands for the
remaining enum values that are neither `BKEND_GLX` nor
`BKEND_XR_GLX_HYBRID`. -/
inductive Backend
  | xrender
  | glx
  | xr_glx_hybrid
deriving DecidableEq

/-- Texture target chosen for a bound pixmap (`GLX_TEXTURE_2D_EXT` /
`GLX_TEXTURE_RECTANGLE_EXT`). -/
inductive TexTarget
  | t2d
  | rect
deriving DecidableEq

/-- Texture pixel format of a retained FBConfig
(`GLX_TEXTURE_FORMAT_RGB_EXT` / `GLX_TEXTURE_FORMAT_RGBA_EXT`); `unset`
is the zero initializer. -/
inductive TexFmt
  | unset
  | rgb
  | rgba
deriving DecidableEq

/-- The retained per-depth `glx_fbconfig_t` data the bridge consults: the
two relevant bits of the `GLX_BIND_TO_TEXTURE_TARGETS_EXT` bitmask, the
texture format and the `GLX_Y_INVERTED_EXT` flag. -/
structure GlxFbconfig where
  tgt2dBit : Bool
  tgtRectBit : Bool
  fmt : TexFmt
  yInverted : Bool
deriving DecidableEq

/-- `glx_texture_t`.  Handles (`texture`, `glpixmap`, `pixmap`) are
naturals with `0` meaning absent/NULL. -/
structure GlxTexture where
  texture : ℕ
  glpixmap : ℕ
  pixmap : ℕ
  target : Option TexTarget
  width : ℕ
  height : ℕ
  depth : ℕ
  y_inverted : Bool
deriving DecidableEq

/-- The zero-initialized `GLX_TEX_DEF` (src/opengl.c:893-902). -/
def GLX_TEX_DEF : GlxTexture :=
  { texture := 0, glpixmap := 0, pixmap := 0, target := none,
    width := 0, height := 0, depth := 0, y_inverted := false }

/-- External inputs of one `glx_bind_pixmap` call: backend selector,
`XGetGeometry` result for the requested pixmap, the per-depth FBConfig
table (meaningful on indices `0..OPENGL_MAX_DEPTH` only), the
non-power-of-two capability flag, and the handles produced by
`glXCreatePixmap` / `glGenTextures` (0 = allocation failure). -/
structure BindEnv where
  backend : Backend
  geometry : Option (ℕ × ℕ × ℕ)
  fbconfigs : ℕ → Option GlxFbconfig
  hasNPOT : Bool
  newGlxPixmap : ℕ
  newTexture : ℕ

/-- `glx_release_pixmap` (src/opengl.c:1026-1042): destroys the GLX
pixmap and zeroes its handle; the texture object is retained.  (The
`glXReleaseTexImageEXT` unbind it issues touches only transient GL
state.) -/
def glx_release_pixmap (ptex : GlxTexture) : GlxTexture :=
  if ptex.glpixmap ≠ 0 then { ptex with glpixmap := 0 } else ptex

/-- Texture-target selection of `glx_bind_pixmap` (src/opengl.c:945-954). -/
def texTargetOf (pcfg : GlxFbconfig) (hasNPOT : Bool) : TexTarget :=
  if pcfg.tgt2dBit ∧ hasNPOT then TexTarget.t2d
  else if pcfg.tgtRectBit then TexTarget.rect
  else if ¬ pcfg.tgt2dBit then TexTarget.rect
  else TexTarget.t2d

/-- Entry phase of `glx_bind_pixmap` (src/opengl.c:892-913): allocate the
zeroed structure on first use, and release the old GLX-pixmap binding
when the recorded pixmap identity differs from the requested one. -/
def bindPrep (pptex : Option GlxTexture) (pixmap : ℕ) : GlxTexture :=
  let p0 := pptex.getD GLX_TEX_DEF
  if p0.texture ≠ 0 ∧ p0.pixmap ≠ pixmap then glx_release_pixmap p0 else p0

/-- Tail of `glx_bind_pixmap` from the `glpixmap` NULL-check on
(src/opengl.c:976-1021): fail if the GLX pixmap is absent, create the
texture object if absent, fail if still absent, else succeed.  The
`need_release` flag only governs the transient `glXReleaseTexImageEXT` /
`glXBindTexImageEXT` calls and affects no modelled state. -/
def bindFinish (env : BindEnv) (ptex : GlxTexture) :
    Option (Bool × Option GlxTexture) :=
  if ptex.glpixmap = 0 then some (false, some ptex)
  else
    let ptex2 := if ptex.texture = 0 then { ptex with texture := env.newTexture } else ptex
    if ptex2.texture = 0 then some (false, some ptex2)
    else some (true, some ptex2)

/-- `glx_bind_pixmap` (src/opengl.c:877-1021).  The result is `none` when
the call runs into undefined behaviour: with an explicitly supplied depth
greater than `OPENGL_MAX_DEPTH`, the code reads
`ps->psglx->fbconfigs[depth]` out of the bounds of the per-depth table
(src/opengl.c:936) — the depth ceiling is only checked on the
queried-geometry path (src/opengl.c:929). -/
def glx_bind_pixmap (env : BindEnv) (pptex : Option GlxTexture)
    (pixmap width height depth : ℕ) : Option (Bool × Option GlxTexture) :=
  if env.backend ≠ Backend.glx ∧ env.backend ≠ Backend.xr_glx_hybrid then
    some (true, pptex)
  else if pixmap = 0 then some (false, pptex)
  else if (bindPrep pptex pixmap).glpixmap = 0 then
    match
      (if width ≠ 0 ∧ height ≠ 0 ∧ depth ≠ 0 then Except.ok (width, height, depth)
       else
         match env.geometry with
         | none => Except.error ()
         | some (w, h, d) =>
             if d > OPENGL_MAX_DEPTH then Except.error () else Except.ok (w, h, d) :
       Except Unit (ℕ × ℕ × ℕ)) with
    | Except.error _ => some (false, some (bindPrep pptex pixmap))
    | Except.ok (w, h, d) =>
        if d > OPENGL_MAX_DEPTH then
          none
        else
          match env.fbconfigs d with
          | none => some (false, some (bindPrep pptex pixmap))
          | some pcfg =>
              bindFinish env
                { texture := (bindPrep pptex pixmap).texture
                  glpixmap := env.newGlxPixmap
                  pixmap := pixmap
                  target := some (texTargetOf pcfg env.hasNPOT)
                  width := w, height := h, depth := d
                  y_inverted := pcfg.yInverted }
  else bindFinish env (bindPrep pptex pixmap)

/-- C10: with a backend that is neither GLX nor the XRender-GLX hybrid,
`glx_bind_pixmap` returns success at once without touching the binding;
and under a GLX (or hybrid) backend a zero pixmap id fails without
touching the binding (src/opengl.c:880-886). -/
theorem C10_bind_pixmap_gates (env : BindEnv) (pptex : Option GlxTexture)
    (pixmap width height depth : ℕ) :
    (env.backend ≠ Backend.glx → env.backend ≠ Backend.xr_glx_hybrid →
      glx_bind_pixmap env pptex pixmap width height depth = some (true, pptex)) ∧
    ((env.backend = Backend.glx ∨ env.backend = Backend.xr_glx_hybrid) →
      glx_bind_pixmap env pptex 0 width height depth = some (false, pptex)) := by
  constructor
  · intro h1 h2
    simp [glx_bind_pixmap, h1, h2]
  · intro hb
    have h : ¬ (env.backend ≠ Backend.glx ∧ env.backend ≠ Backend.xr_glx_hybrid) := by
      rcases hb with h | h <;> simp [h]
    simp [glx_bind_pixmap, h]

/-- A session configured with the XRender backend. -/
def envXR : BindEnv := ⟨Backend.xrender, none, fun _ => none, false, 0, 0⟩

/-- A GLX-backend session whose external queries and allocations all fail. -/
def envGLX0 : BindEnv := ⟨Backend.glx, none, fun _ => none, false, 0, 0⟩

/-- Witness for `C10_bind_pixmap_gates` at concrete inputs. -/
theorem C10_bind_pixmap_gates_witness :
    glx_bind_pixmap envXR (some GLX_TEX_DEF) 5 0 0 0 = some (true, some GLX_TEX_DEF) ∧
    glx_bind_pixmap envGLX0 (some GLX_TEX_DEF) 0 0 0 0 = some (false, some GLX_TEX_DEF) :=
  ⟨(C10_bind_pixmap_gates envXR (some GLX_TEX_DEF) 5 0 0 0).1 (by decide) (by decide),
   (C10_bind_pixmap_gates envGLX0 (some GLX_TEX_DEF) 0 0 0 0).2 (Or.inl rfl)⟩

/-- An existing binding of pixmap 1 with both handles present. -/
def texC4 : GlxTexture :=
  { texture := 7, glpixmap := 5, pixmap := 1, target := some TexTarget.rect,
    width := 4, height := 4, depth := 24, y_inverted := false }

/-- A GLX-backend session whose geometry query fails. -/
def envC4 : BindEnv := ⟨Backend.glx, none, fun _ => none, false, 0, 0⟩

/-- C4 (counterexample): rebinding an existing both-handles-present
binding to a different pixmap id releases the old GLX pixmap
(src/opengl.c:911-913), and a subsequent geometry-query failure returns
failure with a bare `return false` (src/opengl.c:924-927): the retained
texture handle is present while the GLX-pixmap handle is absent, so the
both-absent-or-both-present invariant does not hold after this failing
call, and no release/teardown path runs before returning. -/
theorem C4_counterexample :
    glx_bind_pixmap envC4 (some texC4) 2 0 0 0
        = some (false, some { texC4 with glpixmap := 0 }) ∧
    ¬ ((({ texC4 with glpixmap := 0 } : GlxTexture).glpixmap = 0 ∧
         ({ texC4 with glpixmap := 0 } : GlxTexture).texture = 0) ∨
       (({ texC4 with glpixmap := 0 } : GlxTexture).glpixmap ≠ 0 ∧
         ({ texC4 with glpixmap := 0 } : GlxTexture).texture ≠ 0)) := by
  decide

theorem bindFinish_true (env : BindEnv) (ptex : GlxTexture) (s : Option GlxTexture)
    (h : bindFinish env ptex = some (true, s)) :
    ∃ t, s = some t ∧ t.texture ≠ 0 ∧ t.glpixmap ≠ 0 := by
  unfold bindFinish at h
  by_cases h1 : ptex.glpixmap = 0
  · simp [h1] at h
  · by_cases ht : ptex.texture = 0
    · by_cases h2 : env.newTexture = 0
      · simp [h1, ht, h2] at h
      · simp [h1, ht, h2] at h
        exact ⟨_, h.symm, by simpa using h2, by simpa using h1⟩
    · simp [h1, ht] at h
      exact ⟨_, h.symm, by simpa using ht, by simpa using h1⟩

/-- C4 (amended): a failing `glx_bind_pixmap` call does not tear the
binding down, and the both-absent-or-both-present invariant can be broken
after a failing call (see the counterexample); what does hold is that
every *successful* call under a GLX backend with a nonzero pixmap id
leaves a binding with both the texture and GLX-pixmap handles present. -/
theorem C4_bind_pixmap_amended (env : BindEnv) (pptex : Option GlxTexture)
    (pixmap width height depth : ℕ) (s : Option GlxTexture)
    (hb : env.backend = Backend.glx ∨ env.backend = Backend.xr_glx_hybrid)
    (hpix : pixmap ≠ 0)
    (hres : glx_bind_pixmap env pptex pixmap width height depth = some (true, s)) :
    ∃ t, s = some t ∧ t.texture ≠ 0 ∧ t.glpixmap ≠ 0 := by
  unfold glx_bind_pixmap at hres
  have h : ¬ (env.backend ≠ Backend.glx ∧ env.backend ≠ Backend.xr_glx_hybrid) := by
    rcases hb with h | h <;> simp [h]
  rw [if_neg h, if_neg hpix] at hres
  by_cases hg : (bindPrep pptex pixmap).glpixmap = 0
  · rw [if_pos hg] at hres
    repeat' split at hres
    all_goals
      first
        | exact bindFinish_true _ _ _ hres
        | simp_all
  · rw [if_neg hg] at hres
    exact bindFinish_true _ _ _ hres

/-- FBConfig retained for depth 24 in the witness session. -/
def cfg24 : GlxFbconfig := ⟨true, true, TexFmt.rgb, false⟩

/-- A GLX-backend session where every external call succeeds. -/
def envOK : BindEnv :=
  ⟨Backend.glx, some (4, 4, 24), fun d => if d = 24 then some cfg24 else none, true, 5, 7⟩

/-- The binding produced by a successful first bind in `envOK`. -/
def texOK : GlxTexture :=
  { texture := 7, glpixmap := 5, pixmap := 1, target := some TexTarget.t2d,
    width := 4, height := 4, depth := 24, y_inverted := false }

/-- Witness for `C4_bind_pixmap_amended` at a concrete successful call. -/
theorem C4_bind_pixmap_amended_witness :
    ∃ t, (some texOK : Option GlxTexture) = some t ∧ t.texture ≠ 0 ∧ t.glpixmap ≠ 0 :=
  C4_bind_pixmap_amended envOK none 1 0 0 0 (some texOK) (Or.inl rfl) (by decide) (by decide)

/-- A GLX-backend session used for the explicit-depth counterexample. -/
def envC5 : BindEnv := ⟨Backend.glx, none, fun _ => none, false, 0, 0⟩

/-- C5 (counterexample): an explicitly supplied depth of 33 — greater
than `OPENGL_MAX_DEPTH` — does not make `glx_bind_pixmap` abort with
failure: the depth ceiling is only checked when the geometry was queried
(src/opengl.c:929), and on the explicit path the call instead reads
`fbconfigs[33]` out of the bounds of the 33-entry table
(src/opengl.c:936), modelled as the undefined result `none`. -/
theorem C5_counterexample :
    glx_bind_pixmap envC5 none 1 1 1 33 = none := by
  decide

/-- C5 (amended): when dimensions/depth are omitted and the depth is
obtained by querying the windowing system, a queried depth greater than
`OPENGL_MAX_DEPTH` aborts the call with failure, leaving the binding as
it was after the entry phase; an explicitly supplied over-limit depth is
not checked (see the counterexample). -/
theorem C5_bind_pixmap_depth_amended (env : BindEnv) (pptex : Option GlxTexture)
    (pixmap width height depth gw gh gd : ℕ)
    (hb : env.backend = Backend.glx ∨ env.backend = Backend.xr_glx_hybrid)
    (hpix : pixmap ≠ 0)
    (hglp : (bindPrep pptex pixmap).glpixmap = 0)
    (hq : ¬ (width ≠ 0 ∧ height ≠ 0 ∧ depth ≠ 0))
    (hgeom : env.geometry = some (gw, gh, gd))
    (hd : gd > OPENGL_MAX_DEPTH) :
    glx_bind_pixmap env pptex pixmap width height depth
      = some (false, some (bindPrep pptex pixmap)) := by
  unfold glx_bind_pixmap
  have h : ¬ (env.backend ≠ Backend.glx ∧ env.backend ≠ Backend.xr_glx_hybrid) := by
    rcases hb with h | h <;> simp [h]
  rw [if_neg h, if_neg hpix, if_pos hglp]
  simp [hq, hgeom, hd]

/-- A GLX-backend session whose geometry query reports depth 40. -/
def envC5w : BindEnv := ⟨Backend.glx, some (1, 1, 40), fun _ => none, false, 0, 0⟩

/-- Witness for `C5_bind_pixmap_depth_amended` at a concrete call. -/
theorem C5_bind_pixmap_depth_amended_witness :
    glx_bind_pixmap envC5w none 1 0 0 0 = some (false, some (bindPrep none 1)) :=
  C5_bind_pixmap_depth_amended envC5w none 1 0 0 0 1 1 40 (Or.inl rfl) (by decide)
    (by decide) (by decide) (by decide) (by decide)

/-! ## FBConfig negotiation (src/opengl.c:104-192) -/

/-- The data of a retained `glx_fbconfig_t` table entry (besides the
opaque `cfg` handle): texture format, `BIND_TO_TEXTURE_TARGETS` bitmask
and Y-inversion flag. -/
structure FbStored where
  fmt : TexFmt
  tgts : ℤ
  yInv : Bool
deriving DecidableEq

/-- One enumerated FBConfig candidate, as seen through the attribute
queries of the `glx_update_fbconfig` loop; `none` models a failed query
(`Success != glXGetFBConfigAttrib(...)`, or a NULL visual). -/
structure FbCandidate where
  samples : Option ℤ
  bufferSize : Option ℤ
  alphaSize : Option ℤ
  tgts : Option ℤ
  visualDepth : Option ℤ
  bindRgba : Option ℤ
  bindRgb : Option ℤ
  yInverted : Option ℤ

/-- `Success == glXGetFBConfigAttrib(...) && val` — the query succeeded
and returned nonzero. -/
def optNonzero : Option ℤ → Bool
  | some v => v ≠ 0
  | none => false

/-- The multi-sample skip (src/opengl.c:122-125): skip when the
`GLX_SAMPLES` query succeeds with a value above 1. -/
def sampleSkip (c : FbCandidate) : Bool :=
  match c.samples with
  | some v => v > 1
  | none => false

/-- The per-candidate body of the `glx_update_fbconfig` loop
(src/opengl.c:110-174): the list of `(depth, entry)` stores it submits to
`glx_update_fbconfig_bydepth`, in order. -/
def candidateStores (c : FbCandidate) : List (ℤ × FbStored) :=
  if sampleSkip c then []
  else
    match c.bufferSize, c.alphaSize with
    | some depth, some depthAlpha =>
        match c.tgts with
        | some tg =>
            match c.visualDepth with
            | some visualdepth =>
                let rgba := 32 ≤ depth ∧ depthAlpha ≠ 0 ∧ optNonzero c.bindRgba = true
                let rgb := optNonzero c.bindRgb = true
                let yInv := optNonzero c.yInverted
                (if depth - depthAlpha = visualdepth ∧ depth - depthAlpha < 32 ∧ rgb then
                  [(depth - depthAlpha, ⟨TexFmt.rgb, tg, yInv⟩)]
                else []) ++
                (if depth = visualdepth ∧ rgba then
                  [(depth, ⟨TexFmt.rgba, tg, yInv⟩)]
                else [])
            | none => []
        | none => []
    | _, _ => []

/-- `glx_update_fbconfig_bydepth` (src/opengl.c:81-99): ignore out-of-range
depths, and store the entry when the comparator ranks it better than the
retained one.  The comparator consults GL attribute queries on the live
display, so its verdict enters as the oracle `replace`. -/
def glx_update_fbconfig_bydepth (replace : ℤ × FbStored → Bool)
    (tbl : ℤ → Option FbStored) (d : ℤ) (info : FbStored) : ℤ → Option FbStored :=
  if 0 ≤ d ∧ d ≤ (OPENGL_MAX_DEPTH : ℤ) ∧ replace (d, info) = true then
    fun x => if x = d then some info else tbl x
  else tbl

/-- One iteration of the candidate loop: submit the candidate's stores. -/
def processCandidate (replace : ℤ × FbStored → Bool)
    (tbl : ℤ → Option FbStored) (c : FbCandidate) : ℤ → Option FbStored :=
  (candidateStores c).foldl
    (fun t di => glx_update_fbconfig_bydepth replace t di.1 di.2) tbl

/-- The candidate loop of `glx_update_fbconfig` (src/opengl.c:110-174)
over the enumerated FBConfig list. -/
def glx_update_fbconfig (replace : ℤ × FbStored → Bool)
    (cs : List FbCandidate) (tbl : ℤ → Option FbStored) : ℤ → Option FbStored :=
  cs.foldl (processCandidate replace) tbl

theorem candidateStores_cond (c : FbCandidate) (d : ℤ) (e : FbStored)
    (h : (d, e) ∈ candidateStores c) :
    ∃ bs as vd, c.bufferSize = some bs ∧ c.alphaSize = some as ∧
      c.visualDepth = some vd ∧
      ((bs - as = vd ∧ optNonzero c.bindRgb = true ∧ e.fmt = TexFmt.rgb ∧ d = bs - as) ∨
       (bs = vd ∧ optNonzero c.bindRgba = true ∧ e.fmt = TexFmt.rgba ∧ d = bs)) := by
  unfold candidateStores at h
  split_ifs at h with hs
  · simp at h
  · rcases hbs : c.bufferSize with _ | bs <;> rw [hbs] at h
    · simp at h
    · rcases has : c.alphaSize with _ | as <;> rw [has] at h
      · simp at h
      · rcases htg : c.tgts with _ | tg <;> rw [htg] at h
        · simp at h
        · rcases hvd : c.visualDepth with _ | vd <;> rw [hvd] at h
          · simp at h
          · refine ⟨bs, as, vd, rfl, rfl, rfl, ?_⟩
            simp only [] at h
            rw [List.mem_append] at h
            rcases h with h | h <;> split_ifs at h with hc <;> simp at h
            · rcases h with ⟨rfl, rfl⟩
              exact Or.inl ⟨hc.1, hc.2.2, rfl, rfl⟩
            · rcases h with ⟨rfl, rfl⟩
              exact Or.inr ⟨hc.1, hc.2.2.2, rfl, rfl⟩

theorem bydepth_lookup (replace : ℤ × FbStored → Bool)
    (t : ℤ → Option FbStored) (d' : ℤ) (i : FbStored) (d : ℤ) :
    glx_update_fbconfig_bydepth replace t d' i d = t d ∨
      (d = d' ∧ glx_update_fbconfig_bydepth replace t d' i d = some i) := by
  unfold glx_update_fbconfig_bydepth
  split_ifs with h
  · by_cases hd : d = d' <;> simp [hd]
  · exact Or.inl rfl

theorem foldStores_lookup (replace : ℤ × FbStored → Bool)
    (l : List (ℤ × FbStored)) (t : ℤ → Option FbStored) (d : ℤ) (e : FbStored) :
    (l.foldl (fun t di => glx_update_fbconfig_bydepth replace t di.1 di.2) t) d = some e →
    t d = some e ∨ (d, e) ∈ l := by
  induction l generalizing t with
  | nil => exact fun h => Or.inl h
  | cons x xs ih =>
      intro h
      simp only [List.foldl_cons] at h
      rcases ih _ h with h' | h'
      · rcases bydepth_lookup replace t x.1 x.2 d with h2 | ⟨hd, h2⟩
        · exact Or.inl (h2 ▸ h')
        · rw [h2] at h'
          have : (d, e) = x := by
            cases x
            simp only [Option.some.injEq] at h'
            simp [hd, ← h']
          exact Or.inr (this ▸ List.mem_cons_self _ _)
      · exact Or.inr (List.mem_cons_of_mem _ h')

/-- C6: a candidate is retained in the per-depth table only if its buffer
size minus its alpha size equals the visual's reported depth and it is
RGB-bindable (stored with texture format RGB, at that depth), or its
buffer size equals the visual's depth and it is RGBA-bindable (stored
with format RGBA); every entry of the table after negotiation is either
an initial entry or such a store of one of the candidates. -/
theorem C6_fbconfig_acceptance (replace : ℤ × FbStored → Bool)
    (cs : List FbCandidate) (tbl0 : ℤ → Option FbStored) (d : ℤ) (e : FbStored) :
    (∀ (c : FbCandidate) (d' : ℤ) (e' : FbStored), (d', e') ∈ candidateStores c →
      ∃ bs as vd, c.bufferSize = some bs ∧ c.alphaSize = some as ∧
        c.visualDepth = some vd ∧
        ((bs - as = vd ∧ optNonzero c.bindRgb = true ∧ e'.fmt = TexFmt.rgb ∧ d' = bs - as) ∨
         (bs = vd ∧ optNonzero c.bindRgba = true ∧ e'.fmt = TexFmt.rgba ∧ d' = bs))) ∧
    (glx_update_fbconfig replace cs tbl0 d = some e →
      tbl0 d = some e ∨ ∃ c ∈ cs, (d, e) ∈ candidateStores c) := by
  constructor
  · exact fun c d' e' h => candidateStores_cond c d' e' h
  · unfold glx_update_fbconfig
    induction cs generalizing tbl0 with
    | nil => exact fun h => Or.inl h
    | cons c cs ih =>
        intro h
        rcases ih (processCandidate replace tbl0 c) h with h' | ⟨c', hc', hm⟩
        · rcases foldStores_lookup replace _ _ _ _ h' with h2 | h2
          · exact Or.inl h2
          · exact Or.inr ⟨c, List.mem_cons_self _ _, h2⟩
        · exact Or.inr ⟨c', List.mem_cons_of_mem _ hc', hm⟩

/-- A candidate accepted on the RGB path: buffer size 24, alpha 0,
visual depth 24. -/
def candRGB : FbCandidate :=
  { samples := some 0, bufferSize := some 24, alphaSize := some 0,
    tgts := some 5, visualDepth := some 24, bindRgba := some 0,
    bindRgb := some 1, yInverted := some 0 }

/-- Witness for `C6_fbconfig_acceptance`: after negotiating the single
candidate `candRGB` into an empty table (with an always-replace oracle),
the entry retained at depth 24 satisfies the acceptance condition. -/
theorem C6_fbconfig_acceptance_witness :
    (fun _ => none : ℤ → Option FbStored) 24
        = some (⟨TexFmt.rgb, 5, false⟩ : FbStored) ∨
      ∃ c ∈ [candRGB], ((24 : ℤ), (⟨TexFmt.rgb, 5, false⟩ : FbStored)) ∈ candidateStores c :=
  (C6_fbconfig_acceptance (fun _ => true) [candRGB] (fun _ => none) 24
      ⟨TexFmt.rgb, 5, false⟩).2 (by decide)

/-! ## Kawase pyramid iteration reduction (src/opengl.c:1416-1418) -/

/-- The reduction loop of `glx_kawase_blur_dst`:
`while ((mwidth / (1 << (iterations-1))) < 1 || (mheight / (1 << (iterations-1))) < 1) --iterations;`
as a recursion on `iterations`.  (The argument-0 case is never reached
from a positive start when `w, h ≥ 1`, since at `iterations = 1` the
divisor is 1 and the loop condition is false.) -/
def kawaseReduce (w h : ℕ) : ℕ → ℕ
  | 0 => 0
  | i + 1 => if w / 2 ^ i < 1 ∨ h / 2 ^ i < 1 then kawaseReduce w h i else i + 1

theorem div_pow_lt_one_iff (a n : ℕ) : a / 2 ^ n < 1 ↔ a < 2 ^ n := by
  rw [Nat.lt_one_iff, Nat.div_eq_zero_iff (Nat.two_pow_pos n)]

theorem kawaseReduce_spec (w h : ℕ) (hw : 1 ≤ w) (hh : 1 ≤ h) :
    ∀ iters, 1 ≤ iters →
      1 ≤ kawaseReduce w h iters ∧ kawaseReduce w h iters ≤ iters ∧
      2 ^ (kawaseReduce w h iters - 1) ≤ w ∧ 2 ^ (kawaseReduce w h iters - 1) ≤ h ∧
      ∀ j, j ≤ iters → 2 ^ (j - 1) ≤ w → 2 ^ (j - 1) ≤ h →
        j ≤ kawaseReduce w h iters := by
  intro iters
  induction iters with
  | zero => omega
  | succ n ih =>
      intro _
      rcases Nat.eq_zero_or_pos n with hn | hn
      · subst hn
        have hr : kawaseReduce w h 1 = 1 := by
          have hcond : ¬ (w / 2 ^ 0 < 1 ∨ h / 2 ^ 0 < 1) := by
            simp only [pow_zero, Nat.div_one]
            omega
          have hstep : kawaseReduce w h 1
              = if w / 2 ^ 0 < 1 ∨ h / 2 ^ 0 < 1 then kawaseReduce w h 0 else 1 := rfl
          rw [hstep, if_neg hcond]
        rw [hr]
        exact ⟨le_refl 1, le_refl 1, by simpa using hw, by simpa using hh,
          fun j hj _ _ => hj⟩
      · by_cases hc : w / 2 ^ n < 1 ∨ h / 2 ^ n < 1
        · have hr : kawaseReduce w h (n + 1) = kawaseReduce w h n := by
            have hstep : kawaseReduce w h (n + 1)
                = if w / 2 ^ n < 1 ∨ h / 2 ^ n < 1 then kawaseReduce w h n else n + 1 := rfl
            rw [hstep, if_pos hc]
          rcases ih hn with ⟨h1, h2, h3, h4, h5⟩
          rw [hr]
          refine ⟨h1, by omega, h3, h4, ?_⟩
          intro j hj hjw hjh
          rcases Nat.lt_or_ge j (n + 1) with hlt | hge
          · exact h5 j (by omega) hjw hjh
          · have hj1 : j = n + 1 := by omega
            subst hj1
            have hw2 : 2 ^ n ≤ w := by simpa using hjw
            have hh2 : 2 ^ n ≤ h := by simpa using hjh
            rcases hc with hc | hc
            · exact absurd ((div_pow_lt_one_iff w n).1 hc) (by omega)
            · exact absurd ((div_pow_lt_one_iff h n).1 hc) (by omega)
        · have hr : kawaseReduce w h (n + 1) = n + 1 := by
            have hstep : kawaseReduce w h (n + 1)
                = if w / 2 ^ n < 1 ∨ h / 2 ^ n < 1 then kawaseReduce w h n else n + 1 := rfl
            rw [hstep, if_neg hc]
          push_neg at hc
          rw [hr]
          have hw2 : 2 ^ n ≤ w := by
            have h1 := hc.1
            rw [Nat.one_le_div_iff (Nat.two_pow_pos n)] at h1
            exact h1
          have hh2 : 2 ^ n ≤ h := by
            have h1 := hc.2
            rw [Nat.one_le_div_iff (Nat.two_pow_pos n)] at h1
            exact h1
          exact ⟨by omega, le_refl _, by simpa using hw2, by simpa using hh2,
            fun j hj _ _ => hj⟩

/-- C7: for every rectangle `w x h` with `w, h ≥ 1` and requested
iteration count `iters ≥ 1`, the effective iteration count computed by
the reduction loop of `glx_kawase_blur_dst` is the largest `i ≤ iters`
such that both `w >> (i-1) ≥ 1` and `h >> (i-1) ≥ 1`; in particular it is
at least 1, so the decrementing loop terminates before the shift count
would go negative. -/
theorem C7_kawase_iteration_reduction (w h iters : ℕ)
    (hw : 1 ≤ w) (hh : 1 ≤ h) (hi : 1 ≤ iters) :
    1 ≤ kawaseReduce w h iters ∧ kawaseReduce w h iters ≤ iters ∧
    1 ≤ w >>> (kawaseReduce w h iters - 1) ∧
    1 ≤ h >>> (kawaseReduce w h iters - 1) ∧
    ∀ j, j ≤ iters → 1 ≤ w >>> (j - 1) → 1 ≤ h >>> (j - 1) →
      j ≤ kawaseReduce w h iters := by
  have hs : ∀ (a k : ℕ), 1 ≤ a >>> k ↔ 2 ^ k ≤ a := by
    intro a k
    rw [Nat.shiftRight_eq_div_pow, Nat.one_le_div_iff (Nat.two_pow_pos k)]
  rcases kawaseReduce_spec w h hw hh iters hi with ⟨h1, h2, h3, h4, h5⟩
  exact ⟨h1, h2, (hs _ _).2 h3, (hs _ _).2 h4,
    fun j hj hjw hjh => h5 j hj ((hs _ _).1 hjw) ((hs _ _).1 hjh)⟩

/-- Witness for `C7_kawase_iteration_reduction`: a 5x3 rectangle with a
requested count of 4 reduces to 2 effective iterations. -/
theorem C7_kawase_iteration_reduction_witness :
    1 ≤ kawaseReduce 5 3 4 ∧ kawaseReduce 5 3 4 ≤ 4 ∧
    1 ≤ (5 : ℕ) >>> (kawaseReduce 5 3 4 - 1) ∧
    1 ≤ (3 : ℕ) >>> (kawaseReduce 5 3 4 - 1) :=
  have h := C7_kawase_iteration_reduction 5 3 4 (by decide) (by decide) (by decide)
  ⟨h.1, h.2.1, h.2.2.1, h.2.2.2.1⟩

/-! ## Blur routines: scissor/stencil discipline
    (src/opengl.c:1180-1383, 1385-1608) -/

/-- The two GL enable flags the blur routines save on entry
(`glIsEnabled(GL_SCISSOR_TEST)` / `glIsEnabled(GL_STENCIL_TEST)`). -/
structure GLClipState where
  scissor : Bool
  stencil : Bool
deriving DecidableEq

/-- `if (have_scissors) glEnable(GL_SCISSOR_TEST); if (have_stencil)
glEnable(GL_STENCIL_TEST);` — the restore sequence at the end labels and
before the last pass. -/
def restoreClip (hs ht : Bool) (s : GLClipState) : GLClipState :=
  ⟨if hs then true else s.scissor, if ht then true else s.stencil⟩

/-- External inputs of `glx_conv_blur_dst` that steer its control flow:
the length of the contiguous compiled pass chain (`blur_passes[i].prog`,
`i < npasses`), the cache handles after (re)allocation (0 = allocation
failed) and the per-pass framebuffer-completeness verdicts. -/
structure ConvBlurEnv where
  npasses : ℕ
  tex_scr : ℕ
  tex_scr2 : ℕ
  fbo : ℕ
  fbStatus : ℕ → Bool

/-- The pass loop of `glx_conv_blur_dst` (src/opengl.c:1277-1363),
tracking only the scissor/stencil flags: `r` is the number of remaining
passes, `i` the pass index.  A non-last pass checks framebuffer
completeness and aborts to the end label on failure; the last pass
re-enables the saved flags before drawing to the back buffer. -/
def convBlurLoop (hs ht : Bool) (fb : ℕ → Bool) :
    ℕ → ℕ → GLClipState → Bool × GLClipState
  | _, 0, s => (true, s)
  | _, 1, s => (true, restoreClip hs ht s)
  | i, r + 2, s => if fb i then convBlurLoop hs ht fb (i + 1) (r + 1) s else (false, s)

/-- `glx_conv_blur_dst` (src/opengl.c:1180-1383), restricted to its
return value and the scissor/stencil flags.  Failure exits
(texture/framebuffer allocation, framebuffer attachment) all pass
through the `glx_conv_blur_dst_end` label, which re-enables the saved
flags. -/
def glx_conv_blur_dst (env : ConvBlurEnv) (s0 : GLClipState) : Bool × GLClipState :=
  if env.tex_scr = 0 ∨ (2 ≤ env.npasses ∧ env.tex_scr2 = 0) then
    (false, restoreClip s0.scissor s0.stencil s0)
  else if 2 ≤ env.npasses ∧ env.fbo = 0 then
    (false, restoreClip s0.scissor s0.stencil s0)
  else
    ((convBlurLoop s0.scissor s0.stencil env.fbStatus 0 env.npasses
        (if 2 ≤ env.npasses then ⟨false, false⟩ else s0)).1,
     restoreClip s0.scissor s0.stencil
       (convBlurLoop s0.scissor s0.stencil env.fbStatus 0 env.npasses
          (if 2 ≤ env.npasses then ⟨false, false⟩ else s0)).2)

/-- External inputs of `glx_kawase_blur_dst` steering its control flow:
the (already reduced) iteration count, the cache handles after
(re)allocation and the framebuffer verdicts of the down/up passes. -/
structure KawaseBlurEnv where
  iterations : ℕ
  tex_scr : ℕ
  texLevel : ℕ → ℕ
  fbo : ℕ
  fbStatusDown : ℕ → Bool
  fbStatusUp : ℕ → Bool

/-- The per-level texture presence check (src/opengl.c:1436-1441):
`for (i = 1; i <= iterations; i++) if (!pbc->textures[i]) goto end;`. -/
def kawaseTexCheck (texLevel : ℕ → ℕ) : ℕ → ℕ → Bool
  | _, 0 => true
  | i, r + 1 => if texLevel i = 0 then false else kawaseTexCheck texLevel (i + 1) r

/-- The downsample loop (src/opengl.c:1457-1509): it never touches the
scissor/stencil flags and aborts on a framebuffer-attachment failure. -/
def kawaseDownLoop (fb : ℕ → Bool) : ℕ → ℕ → Bool
  | _, 0 => true
  | i, r + 1 => if fb i then kawaseDownLoop fb (i + 1) r else false

/-- The upsample loop (src/opengl.c:1512-1589), counting `i` down from
`iterations` to 1: non-last passes check the framebuffer and abort to the
end label on failure; the last pass (`i = 1`) re-enables the saved
flags before drawing to the back buffer. -/
def kawaseUpLoop (hs ht : Bool) (fb : ℕ → Bool) :
    ℕ → GLClipState → Bool × GLClipState
  | 0, s => (true, s)
  | 1, s => (true, restoreClip hs ht s)
  | r + 2, s => if fb (r + 2) then kawaseUpLoop hs ht fb (r + 1) s else (false, s)

/-- `glx_kawase_blur_dst` (src/opengl.c:1385-1608), restricted to its
return value and the scissor/stencil flags.  Allocation failures abort
before the unconditional `glDisable` pair (src/opengl.c:1453-1454);
every exit passes through the `glx_kawase_blur_dst_end` label. -/
def glx_kawase_blur_dst (env : KawaseBlurEnv) (s0 : GLClipState) : Bool × GLClipState :=
  if env.tex_scr = 0 ∨ ¬ kawaseTexCheck env.texLevel 1 env.iterations ∨
      env.fbo = 0 then
    (false, restoreClip s0.scissor s0.stencil s0)
  else if ¬ kawaseDownLoop env.fbStatusDown 1 env.iterations then
    (false, restoreClip s0.scissor s0.stencil ⟨false, false⟩)
  else
    ((kawaseUpLoop s0.scissor s0.stencil env.fbStatusUp env.iterations
        ⟨false, false⟩).1,
     restoreClip s0.scissor s0.stencil
       (kawaseUpLoop s0.scissor s0.stencil env.fbStatusUp env.iterations
          ⟨false, false⟩).2)

theorem convBlurLoop_states (hs ht : Bool) (fb : ℕ → Bool) :
    ∀ r i s, (convBlurLoop hs ht fb i r s).2 = s ∨
      (convBlurLoop hs ht fb i r s).2 = restoreClip hs ht s := by
  intro r
  induction r using Nat.strong_induction_on with
  | _ r ih =>
      match r with
      | 0 => exact fun i s => Or.inl rfl
      | 1 => exact fun i s => Or.inr rfl
      | r + 2 =>
          intro i s
          show (if fb i then convBlurLoop hs ht fb (i + 1) (r + 1) s
                 else (false, s)).2 = s ∨
               (if fb i then convBlurLoop hs ht fb (i + 1) (r + 1) s
                 else (false, s)).2 = restoreClip hs ht s
          by_cases h : fb i = true
          · rw [if_pos h]
            exact ih (r + 1) (by omega) (i + 1) s
          · rw [if_neg h]
            exact Or.inl rfl

theorem kawaseUpLoop_states (hs ht : Bool) (fb : ℕ → Bool) :
    ∀ r s, (kawaseUpLoop hs ht fb r s).2 = s ∨
      (kawaseUpLoop hs ht fb r s).2 = restoreClip hs ht s := by
  intro r
  induction r using Nat.strong_induction_on with
  | _ r ih =>
      match r with
      | 0 => exact fun s => Or.inl rfl
      | 1 => exact fun s => Or.inr rfl
      | r + 2 =>
          intro s
          show (if fb (r + 2) then kawaseUpLoop hs ht fb (r + 1) s
                 else (false, s)).2 = s ∨
               (if fb (r + 2) then kawaseUpLoop hs ht fb (r + 1) s
                 else (false, s)).2 = restoreClip hs ht s
          by_cases h : fb (r + 2) = true
          · rw [if_pos h]
            exact ih (r + 1) (by omega) s
          · rw [if_neg h]
            exact Or.inl rfl

theorem restoreClip_back (hs ht : Bool) (x : GLClipState)
    (h : x = (⟨hs, ht⟩ : GLClipState) ∨ x = (⟨false, false⟩ : GLClipState) ∨
      x = restoreClip hs ht ⟨hs, ht⟩ ∨ x = restoreClip hs ht ⟨false, false⟩) :
    restoreClip hs ht x = ⟨hs, ht⟩ := by
  rcases h with rfl | rfl | rfl | rfl <;> cases hs <;> cases ht <;> rfl

/-- C8: both blur routines restore the scissor-test and stencil-test
enablement flags to exactly their entry values on every exit path —
success, allocation failure and framebuffer-attachment failure alike. -/
theorem C8_blur_restores_clip_state (cenv : ConvBlurEnv) (kenv : KawaseBlurEnv)
    (hs ht : Bool) :
    (glx_conv_blur_dst cenv ⟨hs, ht⟩).2 = ⟨hs, ht⟩ ∧
    (glx_kawase_blur_dst kenv ⟨hs, ht⟩).2 = ⟨hs, ht⟩ := by
  constructor
  · unfold glx_conv_blur_dst
    split_ifs with h1 h2 hm
    · exact restoreClip_back hs ht _ (Or.inl rfl)
    · exact restoreClip_back hs ht _ (Or.inl rfl)
    · rcases convBlurLoop_states hs ht cenv.fbStatus cenv.npasses 0
          ⟨false, false⟩ with h | h
      · exact restoreClip_back hs ht _ (Or.inr (Or.inl h))
      · exact restoreClip_back hs ht _ (Or.inr (Or.inr (Or.inr h)))
    · rcases convBlurLoop_states hs ht cenv.fbStatus cenv.npasses 0
          ⟨hs, ht⟩ with h | h
      · exact restoreClip_back hs ht _ (Or.inl h)
      · exact restoreClip_back hs ht _ (Or.inr (Or.inr (Or.inl h)))
  · unfold glx_kawase_blur_dst
    split_ifs with h1 h2
    · exact restoreClip_back hs ht _ (Or.inl rfl)
    · rcases kawaseUpLoop_states hs ht kenv.fbStatusUp kenv.iterations
          ⟨false, false⟩ with h | h
      · exact restoreClip_back hs ht _ (Or.inr (Or.inl h))
      · exact restoreClip_back hs ht _ (Or.inr (Or.inr (Or.inr h)))
    · exact restoreClip_back hs ht _ (Or.inr (Or.inl rfl))

/-! ## Blur initialization (src/opengl.c:516-839) -/

/-- One configured blur kernel (`ps->o.blur_kerns[i]`): width, height and
fixed-point data. -/
structure BlurKern where
  wid : ℕ
  hei : ℕ
  data : ℕ → ℚ

/-- External results consumed by blur initialization: whether
`glGenFramebuffers` yields a handle, and the shader/program handles
produced for each pass (0 = creation failure). -/
structure InitBlurEnv where
  fboGen : Bool
  fragShader : ℕ → ℕ
  prog : ℕ → ℕ

/-- The per-pass build loop of `glx_init_conv_blur`
(src/opengl.c:572-643): for each configured kernel, create the fragment
shader (fail on 0) and link the program (fail on 0).  The shader source
itself is the `convLoop` synthesis. -/
def convBuildPasses (env : InitBlurEnv) : ℕ → ℕ → Bool
  | _, 0 => true
  | i, n + 1 =>
      if env.fragShader i = 0 then false
      else if env.prog i = 0 then false
      else convBuildPasses env (i + 1) n

/-- `glx_init_conv_blur` (src/opengl.c:516-655): when more than one
kernel is configured (`ps->o.blur_kerns[1]`), a framebuffer object must
be generable, else the function fails before building anything; then the
passes are built in order.  `kerns` is the contiguous non-NULL prefix of
`ps->o.blur_kerns`. -/
def glx_init_conv_blur (env : InitBlurEnv) (kerns : List BlurKern) : Bool :=
  if 2 ≤ kerns.length ∧ ¬ env.fboGen then false
  else convBuildPasses env 0 kerns.length

/-- `glx_init_kawase_blur` (src/opengl.c:657-827): unconditionally
requires a generable framebuffer, then builds the down- and up-sample
programs. -/
def glx_init_kawase_blur (env : InitBlurEnv) : Bool :=
  if ¬ env.fboGen then false
  else if env.fragShader 0 = 0 then false
  else if env.prog 0 = 0 then false
  else if env.fragShader 1 = 0 then false
  else if env.prog 1 = 0 then false
  else true

/-- `ps->o.blur_method`. -/
inductive BlurMethod
  | conv
  | kawase
  | invalid
deriving DecidableEq

/-- `glx_init_blur` (src/opengl.c:829-839). -/
def glx_init_blur (method : BlurMethod) (env : InitBlurEnv)
    (kerns : List BlurKern) : Bool :=
  match method with
  | BlurMethod.conv => glx_init_conv_blur env kerns
  | BlurMethod.kawase => glx_init_kawase_blur env
  | BlurMethod.invalid => false

/-- C9: with more than one configured convolution kernel and no
generable framebuffer object, blur initialization fails outright —
through `glx_init_conv_blur` and through the `glx_init_blur` dispatcher —
rather than degrading to single-pass blur. -/
theorem C9_multipass_requires_fbo (env : InitBlurEnv) (kerns : List BlurKern)
    (hmulti : 2 ≤ kerns.length) (hfbo : env.fboGen = false) :
    glx_init_conv_blur env kerns = false ∧
    glx_init_blur BlurMethod.conv env kerns = false := by
  have h : glx_init_conv_blur env kerns = false := by
    unfold glx_init_conv_blur
    rw [if_pos ⟨hmulti, by simp [hfbo]⟩]
  exact ⟨h, h⟩

/-- Witness for `C9_multipass_requires_fbo`: two 3x3 kernels, no
framebuffer support. -/
theorem C9_multipass_requires_fbo_witness :
    glx_init_conv_blur ⟨false, fun _ => 1, fun _ => 1⟩
        [⟨3, 3, box3⟩, ⟨3, 3, box3⟩] = false ∧
    glx_init_blur BlurMethod.conv ⟨false, fun _ => 1, fun _ => 1⟩
        [⟨3, 3, box3⟩, ⟨3, 3, box3⟩] = false :=
  C9_multipass_requires_fbo ⟨false, fun _ => 1, fun _ => 1⟩
    [⟨3, 3, box3⟩, ⟨3, 3, box3⟩] (by decide) rfl

end Compton
